import Mathlib

/-!
Verification development for the FileAI repository (Next.js frontend of a
PDF question-answering service, plus a spec-described FastAPI backend).

Frontend components are embedded as pure state-transition functions: each
React event handler becomes a Lean function from component state (and the
relevant network outcome, which the handler only observes) to the new
component state together with the network request it issues, if any.
Keys of the browser localStorage that the code touches are modelled as
fields of a Storage structure.
-/

namespace FileAI

/-! ## Shared data model (frontend/types) -/

/-- Document record, from the frontend Document type
(fields id, filename, uploaded_at). -/
structure Document where
  id : String
  filename : String
  uploaded_at : String
deriving DecidableEq, Repr

/-- Context snippet attached to an assistant message,
from ContextSnippet in the chat types (fields page, text). -/
structure ContextSnippet where
  page : Nat
  text : String
deriving DecidableEq, Repr

/-- Chat message role. -/
inductive Role where
  | user
  | assistant
deriving DecidableEq, Repr

/-- Chat message, from the Message interface in the chat types.
The optional JS fields id, sourcePages, contextSnippets are Options;
the optional boolean error defaults to false when absent. The numeric
timestamp stands for the Date value. -/
structure Message where
  id : String
  role : Role
  content : String
  timestamp : Nat
  sourcePages : Option (List Nat)
  contextSnippets : Option (List ContextSnippet)
  error : Bool
deriving DecidableEq, Repr

/-! ## The api module (src/frontend/lib/api.ts)

The module body consists of five exported async functions; the list below
records exactly the names it exports. -/

/-- Names exported from src/frontend/lib/api.ts. -/
def apiModuleExports : List String :=
  ["uploadPdf", "askQuestion", "getDocumentStatus", "listDocuments", "deleteDocument"]

/-- Names that src/frontend/components/message-item.tsx imports from
the api module (the import line names submitFeedback). -/
def messageItemApiImports : List String :=
  ["submitFeedback"]

/-! ## Feedback component (src/frontend/components/message-item.tsx) -/

/-- Body of the POST /feedback request that handleFeedback constructs:
exactly the fields message_id and is_helpful. -/
structure FeedbackRequest where
  message_id : String
  is_helpful : Bool
deriving DecidableEq, Repr

/-- Local state of one MessageItem: useState feedback (null initially) and
useState isSubmitting (false initially). The pending field models the
isHelpful value captured by the handler invocation that is awaiting its
submitFeedback call; it is none when no call is in flight. -/
structure FeedbackState where
  feedback : Option Bool
  isSubmitting : Bool
  pending : Option Bool
deriving DecidableEq, Repr

/-- Initial component state: feedback null, not submitting. -/
def initialFeedbackState : FeedbackState :=
  { feedback := none, isSubmitting := false, pending := none }

/-- State reached when a submission with value v has resolved
successfully: setFeedback(isHelpful) ran and the finally block cleared
isSubmitting. -/
def settledState (v : Bool) : FeedbackState :=
  { feedback := some v, isSubmitting := false, pending := none }

/-- JS truthiness test of message.id in the guard of handleFeedback:
falsy when the field is absent or the empty string. -/
def msgIdFalsy : Option String → Bool
  | none => true
  | some s => s.isEmpty

/-- The disabled attribute of both feedback buttons:
isSubmitting or feedback not null. -/
def buttonsDisabled (st : FeedbackState) : Bool :=
  st.isSubmitting || st.feedback.isSome

/-- handleFeedback up to its suspension point: the guard returns early
when message.id is falsy or a submission is in flight; otherwise
setIsSubmitting(true) runs and submitFeedback is called with the body
made of message.id and the isHelpful argument. -/
def handleFeedback (msgId : Option String) (st : FeedbackState) (isHelpful : Bool) :
    FeedbackState × Option FeedbackRequest :=
  if msgIdFalsy msgId || st.isSubmitting then (st, none)
  else ({ st with isSubmitting := true, pending := some isHelpful },
        some { message_id := msgId.getD "", is_helpful := isHelpful })

/-- Events the component reacts to: a click on one of the thumb buttons,
or the resolution (success or failure) of the in-flight submitFeedback
call. -/
inductive FeedbackEvent where
  | clickThumb (isHelpful : Bool)
  | settle (success : Bool)
deriving DecidableEq, Repr

/-- One step of the component. A click on a disabled button fires no
handler. Resolution of the in-flight call runs the rest of
handleFeedback: on success setFeedback(isHelpful); in both cases the
finally block runs setIsSubmitting(false). -/
def feedbackStep (msgId : Option String) (st : FeedbackState) :
    FeedbackEvent → FeedbackState × Option FeedbackRequest
  | .clickThumb b =>
      if buttonsDisabled st then (st, none)
      else handleFeedback msgId st b
  | .settle success =>
      match st.pending with
      | none => (st, none)
      | some b =>
          if success then (settledState b, none)
          else ({ st with isSubmitting := false, pending := none }, none)

/-- Run a sequence of events, collecting every request issued. -/
def runFeedback (msgId : Option String) (st : FeedbackState) :
    List FeedbackEvent → FeedbackState × List FeedbackRequest
  | [] => (st, [])
  | e :: es =>
      let r := feedbackStep msgId st e
      let rest := runFeedback msgId r.1 es
      (rest.1, r.2.toList ++ rest.2)

/-! ## Chat interface (chat-interface component, both copies)

Both ChatInterface source files define handleSubmit with the same guard,
the same message construction and the same error handling; this single
embedding covers both. The two Date.now() reads are the parameters now1
(user message) and now2 (assistant or error message). -/

/-- Body of the POST /ask_question request built by handleSubmit. -/
structure AskRequest where
  document_id : String
  question : String
deriving DecidableEq, Repr

/-- Parsed body of a 200 response to /ask_question. -/
structure AskResponse where
  answer : String
  source_pages : List Nat
  context_snippets : List ContextSnippet
deriving DecidableEq, Repr

/-- The three ways the awaited fetch can end inside handleSubmit:
an ok response with data, a non-ok response (else branch), or a thrown
network error (catch branch). -/
inductive AskOutcome where
  | ok (data : AskResponse)
  | httpError
  | fetchFailure
deriving DecidableEq, Repr

/-- Local state of the ChatInterface that handleSubmit touches. -/
structure ChatState where
  messages : List Message
  input : String
  isLoading : Bool
deriving DecidableEq, Repr

/-- The user message appended before the fetch. -/
def mkUserMessage (now : Nat) (input : String) : Message :=
  { id := toString now, role := .user, content := input, timestamp := now,
    sourcePages := none, contextSnippets := none, error := false }

/-- The assistant message built from an ok response: content from answer,
sourcePages from source_pages, contextSnippets mapped field by field from
context_snippets. -/
def mkAssistantMessage (now : Nat) (data : AskResponse) : Message :=
  { id := toString now, role := .assistant, content := data.answer, timestamp := now,
    sourcePages := some data.source_pages,
    contextSnippets := some (data.context_snippets.map (fun s => { page := s.page, text := s.text })),
    error := false }

/-- The error message appended in the non-ok branch. -/
def mkHttpErrorMessage (now : Nat) : Message :=
  { id := toString now, role := .assistant,
    content := "Sorry, I couldn\x27t process your question. Please try again.",
    timestamp := now, sourcePages := none, contextSnippets := none, error := true }

/-- The error message appended in the catch branch. -/
def mkFetchFailureMessage (now : Nat) : Message :=
  { id := toString now, role := .assistant,
    content := "Sorry, there was an error processing your request. Please try again.",
    timestamp := now, sourcePages := none, contextSnippets := none, error := true }

/-- The trim of the guard, as the JS trim method: remove leading and
trailing whitespace. -/
def jsTrim (s : String) : String :=
  String.mk (((s.toList.dropWhile Char.isWhitespace).reverse.dropWhile
    Char.isWhitespace).reverse)

/-- handleSubmit of the ChatInterface. The guard returns early when the
trimmed input is empty or a request is in flight. Otherwise the user
message is appended, the input is cleared, the request is issued, and the
outcome appends the assistant or error message; the finally block clears
isLoading. -/
def handleSubmit (st : ChatState) (docId : String) (now1 now2 : Nat)
    (outcome : AskOutcome) : ChatState × Option AskRequest :=
  if jsTrim st.input == "" || st.isLoading then (st, none)
  else
    let userMessage := mkUserMessage now1 st.input
    let msgs1 := st.messages ++ [userMessage]
    let req : AskRequest := { document_id := docId, question := st.input }
    let msgs2 :=
      match outcome with
      | .ok data => msgs1 ++ [mkAssistantMessage now2 data]
      | .httpError => msgs1 ++ [mkHttpErrorMessage now2]
      | .fetchFailure => msgs1 ++ [mkFetchFailureMessage now2]
    ({ messages := msgs2, input := "", isLoading := false }, some req)

/-! ## Home page (src/frontend/app/page.tsx) -/

/-- The two views of the page. -/
inductive View where
  | upload
  | chat
deriving DecidableEq, Repr

/-- The localStorage keys the code touches, modelled as fields:
uploaded-documents, recentDocumentId, and the chat-history keys, the
latter as an association list from document id to the stored serialized
history. -/
structure Storage where
  uploadedDocuments : Option (List Document)
  recentDocumentId : Option String
  chatHistories : List (String × String)
deriving DecidableEq, Repr

/-- State of the Home component together with the localStorage it writes. -/
structure HomeState where
  activeView : View
  activeDocument : Option Document
  documents : List Document
  isLoading : Bool
  storage : Storage
deriving DecidableEq, Repr

/-- Parsed body of a 200 response to /document_status/{id}. The JSON
field named exists is docExists here because exists is reserved in Lean. -/
structure DocumentStatusResponse where
  id : String
  docExists : Bool
  filename : String
  is_vectorized : Bool
deriving DecidableEq, Repr

/-- fetchDocumentStatus: a none response stands for a non-ok status or a
thrown fetch error, both of which change nothing. On an ok response the
chat view is activated and the active document set only when both exists
and is_vectorized hold; uploaded_at falls back to the current time (the
now argument). The finally block clears isLoading. -/
def fetchDocumentStatus (st : HomeState) (resp : Option DocumentStatusResponse)
    (now : String) : HomeState :=
  let st1 :=
    match resp with
    | some d =>
        if d.docExists && d.is_vectorized then
          { st with
              activeDocument := some { id := d.id, filename := d.filename, uploaded_at := now },
              activeView := .chat }
        else st
    | none => st
  { st1 with isLoading := false }

/-- handleDocumentUpload: set the active document, move it to the front of
the list after filtering out any entry with the same id, switch to the
chat view, and record it as the recent document. -/
def handleDocumentUpload (st : HomeState) (d : Document) : HomeState :=
  { st with
      activeDocument := some d,
      documents := d :: st.documents.filter (fun doc => doc.id ≠ d.id),
      activeView := .chat,
      storage := { st.storage with recentDocumentId := some d.id } }

/-- handleDeleteDocument: a none outcome stands for a non-ok response or a
thrown fetch error, both of which change nothing. On ok the document list
is filtered (in state and in localStorage; the source writes the captured
documents value, which equals the current list in this sequential model),
and when the deleted id is the active document the active document, the
recent-document marker and that chat history are cleared. -/
def handleDeleteDocument (st : HomeState) (documentId : String) (ok : Bool) : HomeState :=
  if ok then
    let docs := st.documents.filter (fun doc => doc.id ≠ documentId)
    let storage1 := { st.storage with uploadedDocuments := some docs }
    let isActive :=
      match st.activeDocument with
      | some a => a.id == documentId
      | none => false
    if isActive then
      { st with
          documents := docs,
          activeDocument := none,
          activeView := .upload,
          storage := { storage1 with
                         recentDocumentId := none,
                         chatHistories := storage1.chatHistories.filter
                           (fun kv => kv.1 ≠ documentId) } }
    else { st with documents := docs, storage := storage1 }
  else st

/-! ## Upload section (upload-section component) -/

/-- A file handed to the dropzone: name, MIME type, size in bytes. -/
structure DroppedFile where
  name : String
  mimeType : String
  size : Nat
deriving DecidableEq, Repr

/-- Local state of the UploadSection that onDrop and uploadFile touch.
The error message state is errorMsg. -/
structure UploadState where
  isUploading : Bool
  uploadProgress : Nat
  errorMsg : Option String
  selectedFile : Option DroppedFile
deriving DecidableEq, Repr

/-- The maxFiles option passed to useDropzone. -/
def dropzoneMaxFiles : Nat := 1

/-- onDrop: take acceptedFiles[0]; when it is present and its type is
application/pdf select it and clear the error, otherwise set the error
message and leave the selection untouched. -/
def onDrop (st : UploadState) (acceptedFiles : List DroppedFile) : UploadState :=
  match acceptedFiles.head? with
  | some file =>
      if file.mimeType = "application/pdf" then
        { st with selectedFile := some file, errorMsg := none }
      else
        { st with errorMsg := some "Please upload a valid PDF file" }
  | none => { st with errorMsg := some "Please upload a valid PDF file" }

/-- A POST /upload_pdf request: the multipart form carries the one file. -/
structure UploadRequest where
  file : DroppedFile
deriving DecidableEq, Repr

/-- The request uploadFile issues: none when no file is selected (the
early return), otherwise the form data built from the selected file. -/
def uploadFileRequest (st : UploadState) : Option UploadRequest :=
  match st.selectedFile with
  | none => none
  | some f => some { file := f }

/-- The welcome message text stored as the initial chat history of a
fresh upload. -/
def welcomeText (filename : String) : String :=
  "I\x27ve analyzed \x22" ++ filename ++ "\x22. Ask me anything about it!"

/-- The localStorage writes of uploadFile after an ok response: the fresh
chat history for the new document, and uploaded-documents set to the new
document followed by the stored list with any entry of the same id
filtered out. -/
def uploadFileStoreDocs (storage : Storage) (d : Document) : Storage :=
  let documents := storage.uploadedDocuments.getD []
  { storage with
      uploadedDocuments := some (d :: documents.filter (fun doc => doc.id ≠ d.id)),
      chatHistories := (d.id, welcomeText d.filename) ::
        storage.chatHistories.filter (fun kv => kv.1 ≠ d.id) }

/-! ## Backend Chunker -/

/-- Modelled from the spec: the backend Chunker is not under src (only the
frontend is); section 4.2 of the spec fixes its contract. A page of text
is cut into chunks of at most maxLen characters; after a full chunk the
window restarts overlap characters before the end of that chunk, so
consecutive chunks of one page share overlap characters; an empty page
yields no chunks and a page of at most maxLen characters yields itself as
the single chunk. The guard overlap < maxLen keeps the window advancing;
a configuration violating it returns the page whole. -/
def chunkPageAux (fuel maxLen overlap : Nat) (s : List Char) : List (List Char) :=
  match fuel with
  | 0 => []
  | fuel + 1 =>
      if s.length = 0 then []
      else if s.length ≤ maxLen then [s]
      else if overlap < maxLen then
        s.take maxLen :: chunkPageAux fuel maxLen overlap (s.drop (maxLen - overlap))
      else [s]

/-- The chunks of one page. The recursion consumes at least one character
of remaining input per step whenever overlap < maxLen, so the page length
is enough fuel. -/
def chunkPage (maxLen overlap : Nat) (s : List Char) : List (List Char) :=
  chunkPageAux s.length maxLen overlap s

/-- Modelled from the spec: per-document chunking applies chunkPage to
each page in order, pairing every chunk with the 1-based page number it
came from; empty pages contribute nothing. -/
def chunkPages (maxLen overlap : Nat) (pages : List (Nat × List Char)) :
    List (Nat × List Char) :=
  pages.flatMap (fun p => (chunkPage maxLen overlap p.2).map (fun c => (p.1, c)))

/-! ## Backend Answer Cache -/

/-- Whitespace test used by the question normalization. -/
def isWsChar (c : Char) : Bool :=
  c = ' ' || c = '\t' || c = '\n' || c = '\r'

/-- Splits a character list into its maximal whitespace-free words,
dropping all whitespace; the accumulator holds the current word reversed. -/
def wordsOfAux : List Char → List Char → List (List Char)
  | [], acc => if acc.isEmpty then [] else [acc.reverse]
  | c :: cs, acc =>
      if isWsChar c then
        if acc.isEmpty then wordsOfAux cs [] else acc.reverse :: wordsOfAux cs []
      else wordsOfAux cs (c :: acc)

/-- The whitespace-separated words of a character list. -/
def wordsOf (s : List Char) : List (List Char) :=
  wordsOfAux s []

/-- Modelled from the spec: the backend Answer Cache is not under src;
section 4.6 of the spec fixes its question normalization as trim
whitespace, collapse internal whitespace runs, case-fold. Trimming and
collapsing amount to joining the words with single spaces; case folding
then lowercases every character. -/
def normalizeQuestion (q : String) : String :=
  String.mk ((List.intercalate [' '] (wordsOf q.toList)).map Char.toLower)

/-- A cached answer: answer text, source pages, context snippets. -/
structure CachedAnswer where
  answer : String
  source_pages : List Nat
  context_snippets : List ContextSnippet
deriving DecidableEq, Repr

/-- Modelled from the spec: cache keys are the pair of the document id
and the normalized question text. -/
def cacheKey (docId q : String) : String × String :=
  (docId, normalizeQuestion q)

/-- Modelled from the spec: the Answer Cache stores Answer values under
(document id, normalized question) keys. -/
structure AnswerCache where
  entries : List ((String × String) × CachedAnswer)
deriving DecidableEq, Repr

/-- Cache lookup under the normalized key. -/
def cacheGet (c : AnswerCache) (docId q : String) : Option CachedAnswer :=
  (c.entries.find? (fun e => e.1 = cacheKey docId q)).map (fun e => e.2)

/-- Cache write under the normalized key. -/
def cachePut (c : AnswerCache) (docId q : String) (a : CachedAnswer) : AnswerCache :=
  ⟨(cacheKey docId q, a) :: c.entries⟩

/-- Modelled from the spec: an ask consults the cache first; on a hit the
stored answer is returned and no upstream call happens; on a miss the
upstream answer (the upstream argument) is computed, stored and returned.
The Bool reports whether the upstream was called. -/
def askCached (c : AnswerCache) (docId q : String) (upstream : CachedAnswer) :
    CachedAnswer × AnswerCache × Bool :=
  match cacheGet c docId q with
  | some a => (a, c, false)
  | none => (upstream, cachePut c docId q upstream, true)

/-! ## Sample states for concrete evaluations -/

/-- Empty localStorage. -/
def emptyStorage : Storage :=
  { uploadedDocuments := none, recentDocumentId := none, chatHistories := [] }

/-- A fresh Home component with a stored recent-document marker. -/
def sampleHome : HomeState :=
  { activeView := .upload, activeDocument := none, documents := [],
    isLoading := true, storage := emptyStorage }

/-- A status response for a processed document. -/
def sampleReadyStatus : DocumentStatusResponse :=
  { id := "d1", docExists := true, filename := "f.pdf", is_vectorized := true }

/-- A processed ask_question response used for concrete evaluations. -/
def sampleAsk : AskResponse :=
  { answer := "Paris", source_pages := [2],
    context_snippets := [{ page := 2, text := "The capital of France is Paris." }] }

/-- A chat with a pending question used for concrete evaluations. -/
def sampleChat : ChatState :=
  { messages := [], input := "What is the capital of France?", isLoading := false }

/-- A document used for concrete evaluations. -/
def sampleDoc : Document := { id := "d1", filename := "f.pdf", uploaded_at := "t0" }

/-- A Home component displaying sampleDoc, used for concrete evaluations. -/
def sampleHomeWithDoc : HomeState :=
  { activeView := .chat, activeDocument := some sampleDoc, documents := [sampleDoc],
    isLoading := false,
    storage := { uploadedDocuments := some [sampleDoc],
                 recentDocumentId := some "d1", chatHistories := [("d1", "[]")] } }

/-- A cached answer used for concrete evaluations. -/
def sampleCached : CachedAnswer :=
  { answer := "Paris", source_pages := [2], context_snippets := [] }

/-! ## Theorems -/

/-- Rebuilding a context snippet from its two fields is the identity, so
the mapped snippet list of the assistant message is the response list
itself. -/
theorem contextSnippets_map_eta (l : List ContextSnippet) :
    l.map (fun s => ({ page := s.page, text := s.text } : ContextSnippet)) = l := by
  induction l with
  | nil => rfl
  | cons s t ih => cases s; simp [ih]

/-- C1: the claim says clicking a feedback button submits feedback through
a submitFeedback function provided by the frontend api module, posting the
body made of message_id and is_helpful. The call site does build exactly
that body, but the api module does not export submitFeedback at all: the
message item imports a function absent from the api module, so the click
can never reach POST /feedback. -/
theorem C1_submitFeedback_not_exported :
    "submitFeedback" ∈ messageItemApiImports
  ∧ "submitFeedback" ∉ apiModuleExports
  ∧ ∀ (msgId : String) (b : Bool),
      (handleFeedback (some msgId) initialFeedbackState b).2
        = if msgId.isEmpty then none
          else some { message_id := msgId, is_helpful := b } := by
  refine ⟨by decide, by decide, fun msgId b => ?_⟩
  by_cases h : msgId.isEmpty <;>
    simp [handleFeedback, msgIdFalsy, initialFeedbackState, h]

/-- C2: on an ok ask_question response the appended assistant message
carries the answer as content, source_pages as sourcePages and the
context snippets element by element in retrieval order; on a non-ok
response or a fetch failure an error-flagged message is appended instead;
in every case the previously displayed messages stay as they were. -/
theorem C2_handleSubmit_messages (st : ChatState) (docId : String) (now1 now2 : Nat)
    (data : AskResponse)
    (hg : (jsTrim st.input == "" || st.isLoading) = false) :
    ((handleSubmit st docId now1 now2 (.ok data)).1.messages
        = st.messages ++ [mkUserMessage now1 st.input, mkAssistantMessage now2 data]
      ∧ (mkAssistantMessage now2 data).content = data.answer
      ∧ (mkAssistantMessage now2 data).sourcePages = some data.source_pages
      ∧ (mkAssistantMessage now2 data).contextSnippets = some data.context_snippets)
  ∧ (∀ outcome : AskOutcome,
      (handleSubmit st docId now1 now2 outcome).1.messages.take st.messages.length
        = st.messages)
  ∧ ((handleSubmit st docId now1 now2 .httpError).1.messages
        = st.messages ++ [mkUserMessage now1 st.input, mkHttpErrorMessage now2]
      ∧ (mkHttpErrorMessage now2).error = true)
  ∧ ((handleSubmit st docId now1 now2 .fetchFailure).1.messages
        = st.messages ++ [mkUserMessage now1 st.input, mkFetchFailureMessage now2]
      ∧ (mkFetchFailureMessage now2).error = true) := by
  refine ⟨⟨?_, rfl, rfl, ?_⟩, ?_, ⟨?_, rfl⟩, ⟨?_, rfl⟩⟩
  · simp [handleSubmit, hg]
  · simp [mkAssistantMessage, contextSnippets_map_eta]
  · intro outcome
    cases outcome <;>
      simp [handleSubmit, hg, List.take_left]
  · simp [handleSubmit, hg]
  · simp [handleSubmit, hg]

/-- C2 witness: the sample ask appends the user question and the grounded
answer. -/
theorem C2_handleSubmit_messages_witness :
    (handleSubmit sampleChat "d1" 1 2 (.ok sampleAsk)).1.messages
      = [mkUserMessage 1 sampleChat.input, mkAssistantMessage 2 sampleAsk] := by
  simpa using (C2_handleSubmit_messages sampleChat "d1" 1 2 sampleAsk (by decide)).1.1

/-- C3: fetchDocumentStatus activates the chat view and sets the active
document exactly when the status response reports both exists and
is_vectorized; on any other response the active document and the view are
left unchanged. -/
theorem C3_fetchDocumentStatus_gate (st : HomeState)
    (resp : Option DocumentStatusResponse) (now : String) :
    (∀ d, resp = some d → (d.docExists && d.is_vectorized) = true →
        (fetchDocumentStatus st resp now).activeView = .chat
      ∧ (fetchDocumentStatus st resp now).activeDocument
          = some { id := d.id, filename := d.filename, uploaded_at := now })
  ∧ (∀ d, resp = some d → (d.docExists && d.is_vectorized) = false →
        (fetchDocumentStatus st resp now).activeView = st.activeView
      ∧ (fetchDocumentStatus st resp now).activeDocument = st.activeDocument)
  ∧ (resp = none →
        (fetchDocumentStatus st resp now).activeView = st.activeView
      ∧ (fetchDocumentStatus st resp now).activeDocument = st.activeDocument) := by
  refine ⟨fun d hd hflags => ?_, fun d hd hflags => ?_, fun hd => ?_⟩ <;> subst hd
  · simp [fetchDocumentStatus, hflags]
  · simp [fetchDocumentStatus, hflags]
  · simp [fetchDocumentStatus]

/-- C3 witness: a ready document activates the chat view. -/
theorem C3_fetchDocumentStatus_gate_witness :
    (fetchDocumentStatus sampleHome (some sampleReadyStatus) "t0").activeView = View.chat
  ∧ (fetchDocumentStatus sampleHome (some sampleReadyStatus) "t0").activeDocument
      = some { id := "d1", filename := "f.pdf", uploaded_at := "t0" } :=
  (C3_fetchDocumentStatus_gate _ _ _).1 _ rfl (by decide)

/-- From a settled feedback state every event is inert: the buttons are
disabled so no handler fires, and no submission is in flight to resolve. -/
theorem feedbackStep_settled (msgId : Option String) (v : Bool) (e : FeedbackEvent) :
    feedbackStep msgId (settledState v) e = (settledState v, none) := by
  cases e with
  | clickThumb b => simp [feedbackStep, buttonsDisabled, settledState]
  | settle s => simp [feedbackStep, settledState]

/-- A settled feedback state is a fixed point of any event sequence and
emits no request. -/
theorem runFeedback_settled (msgId : Option String) (v : Bool)
    (events : List FeedbackEvent) :
    runFeedback msgId (settledState v) events = (settledState v, []) := by
  induction events with
  | nil => rfl
  | cons e es ih => simp [runFeedback, feedbackStep_settled, ih]

/-- C4: once a feedback submission for a message has succeeded, both
buttons are disabled and any further sequence of clicks and resolutions
leaves the recorded is_helpful value unchanged and issues no request;
while a submission is in flight the buttons are likewise disabled and a
click issues nothing, so each answer identifier is submitted at most once
per session. -/
theorem C4_feedback_at_most_once (msgId : Option String) (v : Bool)
    (st : FeedbackState) (events : List FeedbackEvent)
    (h : st = settledState v) :
    (buttonsDisabled st = true ∧ runFeedback msgId st events = (st, []))
  ∧ ∀ st2 : FeedbackState, st2.isSubmitting = true →
      buttonsDisabled st2 = true
      ∧ ∀ b, feedbackStep msgId st2 (.clickThumb b) = (st2, none) := by
  subst h
  refine ⟨⟨?_, runFeedback_settled msgId v events⟩, fun st2 h2 => ⟨?_, fun b => ?_⟩⟩
  · simp [buttonsDisabled, settledState]
  · simp [buttonsDisabled, h2]
  · simp [feedbackStep, buttonsDisabled, h2]

/-- C4 witness: after a recorded thumbs-up, a further click and resolution
change nothing and send nothing. -/
theorem C4_feedback_at_most_once_witness :
    buttonsDisabled (settledState true) = true
  ∧ runFeedback (some "m1") (settledState true)
      [FeedbackEvent.clickThumb false, FeedbackEvent.settle true]
      = (settledState true, []) :=
  (C4_feedback_at_most_once (some "m1") true (settledState true)
      [FeedbackEvent.clickThumb false, FeedbackEvent.settle true] rfl).1

/-- C5: a successful delete removes from the documents list exactly the
entries bearing the deleted identifier and keeps every other entry; when
the deleted document was the active one, the active document, the
recent-document marker and the stored chat history of that document are
cleared as well; an unsuccessful delete changes nothing at all. -/
theorem C5_handleDeleteDocument_frame (st : HomeState) (docId : String) (ok : Bool) :
    (ok = true →
        (handleDeleteDocument st docId true).documents
          = st.documents.filter (fun d => d.id ≠ docId)
      ∧ (∀ d ∈ (handleDeleteDocument st docId true).documents, d.id ≠ docId)
      ∧ (∀ d ∈ st.documents, d.id ≠ docId →
            d ∈ (handleDeleteDocument st docId true).documents)
      ∧ (∀ a, st.activeDocument = some a → a.id = docId →
            (handleDeleteDocument st docId true).activeDocument = none
          ∧ (handleDeleteDocument st docId true).activeView = .upload
          ∧ (handleDeleteDocument st docId true).storage.recentDocumentId = none
          ∧ ∀ kv ∈ (handleDeleteDocument st docId true).storage.chatHistories,
              kv.1 ≠ docId))
  ∧ (ok = false → handleDeleteDocument st docId false = st) := by
  constructor
  · intro _
    have hdocs : (handleDeleteDocument st docId true).documents
        = st.documents.filter (fun d => d.id ≠ docId) := by
      by_cases hc : (match st.activeDocument with
          | some a => a.id == docId
          | none => false) = true
      · simp [handleDeleteDocument, hc]
      · simp [handleDeleteDocument, hc]
    refine ⟨hdocs, ?_, ?_, ?_⟩
    · intro d hd
      rw [hdocs] at hd
      simpa using (List.mem_filter.mp hd).2
    · intro d hd hne
      rw [hdocs]
      exact List.mem_filter.mpr ⟨hd, by simpa using hne⟩
    · intro a ha haid
      have hact : (match st.activeDocument with
          | some a => a.id == docId
          | none => false) = true := by
        rw [ha]
        simp [haid]
      refine ⟨?_, ?_, ?_, ?_⟩
      · simp [handleDeleteDocument, hact]
      · simp [handleDeleteDocument, hact]
      · simp [handleDeleteDocument, hact]
      · intro kv hkv
        simp only [handleDeleteDocument, hact, reduceIte] at hkv
        simpa using (List.mem_filter.mp hkv).2
  · intro _
    simp [handleDeleteDocument]

/-- C5 witness: deleting the active sample document empties the list and
clears the active references. -/
theorem C5_handleDeleteDocument_frame_witness :
    (handleDeleteDocument sampleHomeWithDoc "d1" true).documents = []
  ∧ (handleDeleteDocument sampleHomeWithDoc "d1" true).activeDocument = none
  ∧ (handleDeleteDocument sampleHomeWithDoc "d1" true).storage.recentDocumentId = none := by
  obtain ⟨h1, _, _, h4⟩ := (C5_handleDeleteDocument_frame sampleHomeWithDoc "d1" true).1 rfl
  obtain ⟨ha, _, hr, _⟩ := h4 sampleDoc rfl rfl
  refine ⟨?_, ha, hr⟩
  rw [h1]
  decide

/-- Putting a document at the front after filtering out its identifier
keeps the mapped identifiers free of duplicates. -/
theorem nodup_ids_insert_front (d : Document) (l : List Document)
    (h : (l.map Document.id).Nodup) :
    ((d :: l.filter (fun doc => doc.id ≠ d.id)).map Document.id).Nodup := by
  simp only [List.map_cons, List.nodup_cons]
  constructor
  · intro hmem
    obtain ⟨doc, hdoc, hid⟩ := List.mem_map.mp hmem
    have hne := (List.mem_filter.mp hdoc).2
    simp only [decide_not, Bool.not_eq_true', decide_eq_false_iff_not] at hne
    exact hne hid
  · exact List.Nodup.sublist ((List.filter_sublist _).map _) h

/-- C6: after an upload, both the in-memory list and the list persisted in
localStorage have the fresh document at position zero, and neither list
carries two entries with the same identifier when the previous list did
not. -/
theorem C6_upload_front_nodup (st : HomeState) (storage : Storage) (d : Document)
    (h1 : (st.documents.map Document.id).Nodup)
    (h2 : ((storage.uploadedDocuments.getD []).map Document.id).Nodup) :
    ((handleDocumentUpload st d).documents.head? = some d
      ∧ ((handleDocumentUpload st d).documents.map Document.id).Nodup)
  ∧ (((uploadFileStoreDocs storage d).uploadedDocuments.getD []).head? = some d
      ∧ (((uploadFileStoreDocs storage d).uploadedDocuments.getD []).map
          Document.id).Nodup) :=
  ⟨⟨rfl, nodup_ids_insert_front d st.documents h1⟩,
   ⟨rfl, nodup_ids_insert_front d (storage.uploadedDocuments.getD []) h2⟩⟩

/-- C6 witness: re-uploading the sample document keeps it sole and first
in both lists. -/
theorem C6_upload_front_nodup_witness :
    ((handleDocumentUpload sampleHomeWithDoc sampleDoc).documents.head? = some sampleDoc
      ∧ ((handleDocumentUpload sampleHomeWithDoc sampleDoc).documents.map
          Document.id).Nodup)
  ∧ (((uploadFileStoreDocs emptyStorage sampleDoc).uploadedDocuments.getD []).head?
        = some sampleDoc
      ∧ (((uploadFileStoreDocs emptyStorage sampleDoc).uploadedDocuments.getD []).map
          Document.id).Nodup) :=
  C6_upload_front_nodup sampleHomeWithDoc emptyStorage sampleDoc (by decide) (by decide)

/-- C7: dropping a non-PDF file (or nothing) sets the error message
"Please upload a valid PDF file" and leaves the selection untouched; any
selected file has MIME type application/pdf whenever the previous
selection did, so uploadFile can only ever issue a request for a PDF;
at most one file is carried by a request, matching the maxFiles option. -/
theorem C7_pdf_only_upload (st : UploadState) (files : List DroppedFile)
    (hinv : ∀ f, st.selectedFile = some f → f.mimeType = "application/pdf") :
    (∀ f, files.head? = some f → f.mimeType ≠ "application/pdf" →
        (onDrop st files).errorMsg = some "Please upload a valid PDF file"
      ∧ (onDrop st files).selectedFile = st.selectedFile)
  ∧ (∀ f, (onDrop st files).selectedFile = some f → f.mimeType = "application/pdf")
  ∧ (∀ r, uploadFileRequest st = some r → r.file.mimeType = "application/pdf")
  ∧ (uploadFileRequest st).toList.length ≤ dropzoneMaxFiles := by
  refine ⟨fun f hf hty => ?_, fun f hf => ?_, fun r hr => ?_, ?_⟩
  · rcases files with _ | ⟨g, gs⟩
    · cases hf
    · simp only [List.head?] at hf
      cases hf
      simp [onDrop, hty]
  · rcases files with _ | ⟨g, gs⟩
    · simp only [onDrop, List.head?] at hf
      exact hinv f hf
    · by_cases hty : g.mimeType = "application/pdf"
      · simp only [onDrop, List.head?, hty, if_pos] at hf
        simp only [Option.some.injEq] at hf
        subst hf; exact hty
      · simp only [onDrop, List.head?, hty, if_neg] at hf
        exact hinv f hf
  · rcases hsel : st.selectedFile with _ | f
    · simp [uploadFileRequest, hsel] at hr
    · simp only [uploadFileRequest, hsel, Option.some.injEq] at hr
      subst hr
      exact hinv f hsel
  · rcases hsel : st.selectedFile with _ | f <;>
      simp [uploadFileRequest, hsel, dropzoneMaxFiles]

/-- C7 witness: dropping a text file on a fresh upload section records the
error and selects nothing. -/
theorem C7_pdf_only_upload_witness :
    (onDrop { isUploading := false, uploadProgress := 0, errorMsg := none, selectedFile := none }
        [{ name := "a.txt", mimeType := "text/plain", size := 3 }]).errorMsg
      = some "Please upload a valid PDF file"
  ∧ (onDrop { isUploading := false, uploadProgress := 0, errorMsg := none, selectedFile := none }
        [{ name := "a.txt", mimeType := "text/plain", size := 3 }]).selectedFile
      = none :=
  (C7_pdf_only_upload _ _ (fun _ hf => by cases hf)).1 _ rfl (by decide)

/-- C10: when the trimmed input is empty or a request is in flight,
handleSubmit changes nothing and issues no request. Both ChatInterface
copies carry this same guard. -/
theorem C10_handleSubmit_guard (st : ChatState) (docId : String) (now1 now2 : Nat)
    (outcome : AskOutcome)
    (h : jsTrim st.input = "" ∨ st.isLoading = true) :
    handleSubmit st docId now1 now2 outcome = (st, none) := by
  unfold handleSubmit
  rcases h with h | h <;> simp [h]

/-- C10 witness: submitting whitespace-only input is a no-op. -/
theorem C10_handleSubmit_guard_witness :
    handleSubmit { messages := [], input := "   ", isLoading := false } "doc1" 1 2 .httpError
      = ({ messages := [], input := "   ", isLoading := false }, none) :=
  C10_handleSubmit_guard _ _ _ _ _ (Or.inl (by decide))

/-! ### Chunker lemmas -/

/-- A nonempty page of at most maxLen characters is its own single chunk,
for any sufficient fuel. -/
theorem chunkPageAux_short (maxLen overlap fuel : Nat) (s : List Char)
    (h0 : 0 < s.length) (hm : s.length ≤ maxLen) (hf : s.length ≤ fuel) :
    chunkPageAux fuel maxLen overlap s = [s] := by
  cases fuel with
  | zero => omega
  | succ n =>
      simp only [chunkPageAux]
      rw [if_neg (by omega), if_pos hm]

/-- The first chunk of a nonempty page is its maxLen-prefix. -/
theorem chunkPageAux_head (maxLen overlap : Nat) (ho : overlap < maxLen)
    (fuel : Nat) (s : List Char) (h0 : 0 < s.length) (hf : s.length ≤ fuel) :
    (chunkPageAux fuel maxLen overlap s).head? = some (s.take maxLen) := by
  cases fuel with
  | zero => omega
  | succ n =>
      simp only [chunkPageAux]
      by_cases hm : s.length ≤ maxLen
      · rw [if_neg (by omega), if_pos hm]
        rw [List.take_of_length_le hm]
        rfl
      · rw [if_neg (by omega), if_neg hm, if_pos ho]
        rfl

/-- Chunk count of a long page: the ceiling of (len - overlap) divided by
the window step maxLen - overlap. -/
theorem chunkPageAux_count (maxLen overlap : Nat) (ho : overlap < maxLen) :
    ∀ (fuel : Nat) (s : List Char), s.length ≤ fuel → maxLen < s.length →
      (chunkPageAux fuel maxLen overlap s).length
        = (s.length - overlap + (maxLen - overlap) - 1) / (maxLen - overlap) := by
  intro fuel
  induction fuel with
  | zero => intro s h1 h2; omega
  | succ n ih =>
      intro s h1 h2
      have h0 : ¬ s.length = 0 := by omega
      have hm : ¬ s.length ≤ maxLen := by omega
      simp only [chunkPageAux]
      rw [if_neg h0, if_neg hm, if_pos ho]
      have hlen : (s.drop (maxLen - overlap)).length = s.length - (maxLen - overlap) :=
        List.length_drop _ _
      by_cases hrest : s.length - (maxLen - overlap) ≤ maxLen
      · have hrec : chunkPageAux n maxLen overlap (s.drop (maxLen - overlap))
            = [s.drop (maxLen - overlap)] :=
          chunkPageAux_short maxLen overlap n _ (by omega) (by omega) (by omega)
        rw [hrec]
        have : (s.length - overlap + (maxLen - overlap) - 1) / (maxLen - overlap) = 2 := by
          refine Nat.div_eq_of_lt_le (by omega) (by omega)
        rw [this]
        rfl
      · have hrec := ih (s.drop (maxLen - overlap)) (by omega) (by omega)
        rw [List.length_cons, hrec, hlen]
        have hsplit : s.length - overlap + (maxLen - overlap) - 1
            = (s.length - (maxLen - overlap) - overlap + (maxLen - overlap) - 1)
              + (maxLen - overlap) := by omega
        rw [hsplit, Nat.add_div_right _ (by omega)]

/-- No chunk ever exceeds maxLen characters. -/
theorem chunkPageAux_bound (maxLen overlap : Nat) (ho : overlap < maxLen) :
    ∀ (fuel : Nat) (s : List Char), s.length ≤ fuel →
      ∀ c ∈ chunkPageAux fuel maxLen overlap s, c.length ≤ maxLen := by
  intro fuel
  induction fuel with
  | zero =>
      intro s h1 c hc
      simp [chunkPageAux] at hc
  | succ n ih =>
      intro s h1 c hc
      simp only [chunkPageAux] at hc
      by_cases h0 : s.length = 0
      · rw [if_pos h0] at hc
        simp at hc
      · rw [if_neg h0] at hc
        by_cases hm : s.length ≤ maxLen
        · rw [if_pos hm] at hc
          simp only [List.mem_singleton] at hc
          subst hc
          exact hm
        · rw [if_neg hm, if_pos ho] at hc
          rcases List.mem_cons.mp hc with hc | hc
          · subst hc
            simp [List.length_take]
          · exact ih _ (by have := List.length_drop (maxLen - overlap) s; omega) c hc

/-- Consecutive chunks of one page share exactly the overlap: the
overlap-suffix of each non-final chunk is the overlap-prefix of the next. -/
theorem chunkPageAux_chain (maxLen overlap : Nat) (ho : overlap < maxLen) :
    ∀ (fuel : Nat) (s : List Char), s.length ≤ fuel →
      List.Chain' (fun a b => a.drop (a.length - overlap) = b.take overlap)
        (chunkPageAux fuel maxLen overlap s) := by
  intro fuel
  induction fuel with
  | zero => intro s h1; simp [chunkPageAux]
  | succ n ih =>
      intro s h1
      simp only [chunkPageAux]
      by_cases h0 : s.length = 0
      · rw [if_pos h0]; simp
      · rw [if_neg h0]
        by_cases hm : s.length ≤ maxLen
        · rw [if_pos hm]; exact List.chain'_singleton _
        · rw [if_neg hm, if_pos ho]
          have hdlen : (s.drop (maxLen - overlap)).length = s.length - (maxLen - overlap) :=
            List.length_drop _ _
          have hfuel : (s.drop (maxLen - overlap)).length ≤ n := by omega
          have hpos : 0 < (s.drop (maxLen - overlap)).length := by omega
          refine List.chain'_cons'.mpr ⟨?_, ih _ hfuel⟩
          intro b hb
          rw [chunkPageAux_head maxLen overlap ho n _ hpos hfuel] at hb
          rw [Option.mem_some_iff] at hb
          subst hb
          have htl : (s.take maxLen).length = maxLen := by
            rw [List.length_take]; omega
          rw [htl, List.drop_take, List.take_take]
          have hov : maxLen - (maxLen - overlap) = overlap := by omega
          have hmin : overlap ⊓ maxLen = overlap := inf_eq_left.mpr (Nat.le_of_lt ho)
          rw [hov, hmin]

/-- C8: an empty page yields no chunks; a nonempty page of at most maxLen
characters yields exactly one chunk; a longer page yields exactly
ceil((len - overlap) / (maxLen - overlap)) chunks; no chunk exceeds
maxLen characters; and each pair of consecutive chunks of the page shares
exactly the overlap, as suffix of the former and prefix of the latter. -/
theorem C8_chunker_policy (maxLen overlap : Nat) (s : List Char)
    (ho : overlap < maxLen) :
    (s.length = 0 → chunkPage maxLen overlap s = [])
  ∧ (0 < s.length → s.length ≤ maxLen → chunkPage maxLen overlap s = [s])
  ∧ (maxLen < s.length →
      (chunkPage maxLen overlap s).length
        = (s.length - overlap + (maxLen - overlap) - 1) / (maxLen - overlap))
  ∧ (∀ c ∈ chunkPage maxLen overlap s, c.length ≤ maxLen)
  ∧ List.Chain' (fun a b => a.drop (a.length - overlap) = b.take overlap)
      (chunkPage maxLen overlap s) := by
  refine ⟨?_, ?_, ?_, ?_, ?_⟩
  · intro h
    rw [List.length_eq_zero] at h
    subst h
    rfl
  · intro h0 hm
    exact chunkPageAux_short maxLen overlap s.length s h0 hm le_rfl
  · intro hlong
    exact chunkPageAux_count maxLen overlap ho s.length s le_rfl hlong
  · exact chunkPageAux_bound maxLen overlap ho s.length s le_rfl
  · exact chunkPageAux_chain maxLen overlap ho s.length s le_rfl

/-- C8 witness: a ten-character page with maxLen 4, overlap 1 yields
ceil(9 / 3) = 3 chunks of lengths 4, 4, 4 sharing one character. -/
theorem C8_chunker_policy_witness :
    (4 : Nat) < (String.toList "abcdefghij").length
  ∧ (chunkPage 4 1 (String.toList "abcdefghij")).length
      = ((String.toList "abcdefghij").length - 1 + (4 - 1) - 1) / (4 - 1) :=
  ⟨by decide,
   (C8_chunker_policy 4 1 (String.toList "abcdefghij") (by decide)).2.2.1 (by decide)⟩

/-! ### Answer Cache lemmas -/

/-- Mapping over an intersperse rebuilds the intersperse of the images. -/
theorem intersperse_map_eq (g : List Char → List Char) (sep : List Char) :
    ∀ ws : List (List Char),
      (ws.intersperse sep).map g = (ws.map g).intersperse (g sep)
  | [] => rfl
  | [x] => rfl
  | x :: y :: zs => by
      rw [List.intersperse_cons_cons]
      simp only [List.map_cons]
      rw [List.intersperse_cons_cons, intersperse_map_eq g sep (y :: zs)]
      simp only [List.map_cons]

/-- Case folding commutes with joining words by single spaces, because a
space is its own lower case. -/
theorem map_toLower_intercalate (ws : List (List Char)) :
    (List.intercalate [' '] ws).map Char.toLower
      = List.intercalate [' '] (ws.map (List.map Char.toLower)) := by
  simp only [List.intercalate]
  rw [List.map_flatten, intersperse_map_eq]
  have hsp : [' '].map Char.toLower = [' '] := by decide
  rw [hsp]

/-- C9: two questions with the same case-folded word sequence, that is,
questions differing only in leading or trailing whitespace, internal
whitespace runs, or letter casing, normalize to one cache key; hence for
a fixed document the second ask is served from the entry the first ask
read or wrote, and triggers no upstream call. -/
theorem C9_cache_normalization (a b : String)
    (hw : (wordsOf a.toList).map (List.map Char.toLower)
        = (wordsOf b.toList).map (List.map Char.toLower)) :
    normalizeQuestion a = normalizeQuestion b
  ∧ ∀ (c : AnswerCache) (docId : String) (u1 u2 : CachedAnswer),
      (askCached (askCached c docId a u1).2.1 docId b u2).2.2 = false
    ∧ (cacheGet c docId a = none →
        (askCached (askCached c docId a u1).2.1 docId b u2).1 = u1) := by
  have hn : normalizeQuestion a = normalizeQuestion b := by
    unfold normalizeQuestion
    rw [map_toLower_intercalate, map_toLower_intercalate, hw]
  refine ⟨hn, fun c docId u1 u2 => ?_⟩
  have hkey : cacheKey docId b = cacheKey docId a := by
    simp [cacheKey, hn]
  rcases hga : cacheGet c docId a with _ | x
  · have hget : cacheGet (cachePut c docId a u1) docId b = some u1 := by
      simp [cacheGet, cachePut, hkey]
    constructor
    · simp [askCached, hga, hget]
    · intro _
      simp [askCached, hga, hget]
  · have hgb : cacheGet c docId b = some x := by
      simp only [cacheGet, hkey]
      simpa [cacheGet] using hga
    constructor
    · simp [askCached, hga, hgb]
    · intro hnone
      simp at hnone

/-- C9 witness: two spellings of one question give one key, and the
second ask right after the first calls no upstream. -/
theorem C9_cache_normalization_witness :
    normalizeQuestion "  What IS   this " = normalizeQuestion "what is this"
  ∧ (askCached (askCached ⟨[]⟩ "d1" "  What IS   this " sampleCached).2.1
        "d1" "what is this" sampleCached).2.2 = false := by
  have h := C9_cache_normalization "  What IS   this " "what is this" (by decide)
  exact ⟨h.1, (h.2 ⟨[]⟩ "d1" sampleCached sampleCached).1⟩

end FileAI
